import Mathlib

/-!
Shallow embedding of the RAG backend of the `multi-model-rag-chatbot` repository
(`backend/app/rag_engine.py`, `backend/app/services/model_service.py`,
`backend/app/models.py`), together with theorems checking the frozen claims
about it.  Pure fragments of the Python code are translated to Lean functions;
external effects (embedding, FAISS retrieval, URL crawling, LLM generation,
the memory manager) are abstracted as explicit oracle parameters.
-/

namespace RagChatbot

/-- Python whitespace characters recognised by `str.strip()` (ASCII range). -/
def isPySpace (c : Char) : Bool :=
  c == ' ' || c == '\t' || c == '\n' || c == '\r' || c == Char.ofNat 11 || c == Char.ofNat 12

/-- `not s or not s.strip()` in Python: the string is empty or all whitespace. -/
def isBlank (s : String) : Bool :=
  s.data.all isPySpace

/-- Python `str.isprintable()` restricted to the ASCII range: control
characters (below `0x20`) and DEL (`0x7F`) are not printable, everything else
in the ASCII range is.  Characters above the ASCII range are approximated as
printable (Python additionally excludes some Unicode categories there, which
the claims never exercise). -/
def isPrintableChar (c : Char) : Bool :=
  if c.toNat < 128 then decide (32 ≤ c.toNat ∧ c.toNat ≠ 127) else true

/-- Strip `isPySpace` characters from both ends of a character list
(Python `str.strip()`). -/
def stripEnds (cs : List Char) : List Char :=
  ((cs.dropWhile isPySpace).reverse.dropWhile isPySpace).reverse

/-- Case-insensitive prefix test on character lists (the tag regexes are
compiled with `re.IGNORECASE`). -/
def isPrefixCI : List Char → List Char → Bool
  | [], _ => true
  | _ :: _, [] => false
  | p :: ps, c :: cs => (p.toLower == c.toLower) && isPrefixCI ps cs

/-- Split a character list around the first case-insensitive occurrence of
`pat`, returning the part before the occurrence and the part after it. -/
def splitFirstCI (pat : List Char) : List Char → Option (List Char × List Char)
  | [] => if pat.isEmpty then some ([], []) else none
  | c :: cs =>
    if isPrefixCI pat (c :: cs) then some ([], (c :: cs).drop pat.length)
    else
      match splitFirstCI pat cs with
      | some (b, a) => some (c :: b, a)
      | none => none

/-- One removal pass of `re.sub(r'<tag>.*?</tag>', '', s, DOTALL|IGNORECASE)`
per unit of fuel: find the first opening tag, then the first closing tag after
it (non-greedy match), drop the whole span and continue on the remainder.  A
span lacking a closing tag is not a match and the scan stops (no later opening
tag can be followed by a closing one either).  Each successful removal
strictly shortens the input, so `fuel = length of the input` suffices. -/
def removeTagFuel (opn close : List Char) : Nat → List Char → List Char
  | 0, cs => cs
  | fuel + 1, cs =>
    match splitFirstCI opn cs with
    | none => cs
    | some (before, afterOpen) =>
      match splitFirstCI close afterOpen with
      | none => cs
      | some (_, rest) => before ++ removeTagFuel opn close fuel rest

/-- Remove every `<tag>...</tag>` span (case-insensitive, dot-matches-all,
non-greedy), as the three `re.sub` calls in `RAGEngine.ask` do. -/
def removeTagCI (tag : String) (cs : List Char) : List Char :=
  removeTagFuel ("<" ++ tag ++ ">").data ("</" ++ tag ++ ">").data cs.length cs

/-- Step 1 of the sanitizer: remove `<think>`, `<reasoning>` and `<analysis>`
blocks together with their content, in that order. -/
def removeReasoningBlocks (cs : List Char) : List Char :=
  removeTagCI "analysis" (removeTagCI "reasoning" (removeTagCI "think" cs))

/-- Step 2 of the sanitizer: `re.sub(r"[`*]", "", s)` — drop every backtick
and asterisk. -/
def removeEmphasisChars (cs : List Char) : List Char :=
  cs.filter (fun c => !(c == '*' || c == Char.ofNat 96))

/-- Step 3 of the sanitizer: keep characters that are printable or a newline
or a tab. -/
def dropNonPrintable (cs : List Char) : List Char :=
  cs.filter (fun c => isPrintableChar c || c == '\n' || c == '\t')

/-- Helper for step 4: `n` is the number of consecutive newlines pending;
each maximal run of `k` newlines is emitted as `min k 2` newlines, which is
exactly `re.sub(r"\n{3,}", "\n\n", s)`. -/
def collapseNLAux (n : Nat) : List Char → List Char
  | [] => List.replicate (min n 2) '\n'
  | c :: cs =>
    if c == '\n' then collapseNLAux (n + 1) cs
    else List.replicate (min n 2) '\n' ++ c :: collapseNLAux 0 cs

/-- Step 4 of the sanitizer: collapse runs of three or more newlines to
exactly two. -/
def collapseBlankLines (cs : List Char) : List Char :=
  collapseNLAux 0 cs

/-- The output sanitizer of `RAGEngine.ask` (rag_engine.py lines 338-354):
remove reasoning-tag blocks, drop backticks and asterisks, drop non-printable
characters except newline and tab, collapse 3+ newlines to 2, and strip the
ends (the final `.strip()`). -/
def sanitize (s : String) : String :=
  String.mk (stripEnds (collapseBlankLines (dropNonPrintable
    (removeEmphasisChars (removeReasoningBlocks s.data)))))

/-- A retrieved chunk (`langchain_core.documents.Document`): its text plus the
metadata keys the engine reads.  The `section` metadata key is called
`sectionName` here because `section` is a Lean keyword. -/
structure Chunk where
  pageContent : String := ""
  sourceType : Option String := none
  sourceUrl : Option String := none
  filename : Option String := none
  page : Option Int := none
  sectionName : Option String := none
deriving Repr, DecidableEq

/-- Python truthiness of an optional string: `None` and `""` are falsy. -/
def truthyStr : Option String → Option String
  | none => none
  | some s => if s.isEmpty then none else some s

/-- One entry of the `sources` list returned by `ask`. -/
structure SourceEntry where
  filename : String
  page : Option Int := none
  sectionName : Option String := none
deriving Repr, DecidableEq

/-- The attribution key of a chunk (rag_engine.py lines 364-377): for a chunk
whose `source_type` metadata is `"url"` it is the (truthy) `source_url`,
otherwise the (truthy) `filename`. -/
def sourceKey (d : Chunk) : Option String :=
  if d.sourceType == some "url" then truthyStr d.sourceUrl else truthyStr d.filename

/-- The sources entry built from a chunk: URL chunks get `page = None` and
`section = None`, document chunks carry their `page` and `section` metadata. -/
def entryOf (d : Chunk) : SourceEntry :=
  if d.sourceType == some "url" then { filename := d.sourceUrl.getD "" }
  else { filename := d.filename.getD "", page := d.page, sectionName := d.sectionName }

/-- The source-deduplication loop of `RAGEngine.ask` (lines 360-385): walk the
retrieved chunks keeping a `seen_files` set; a chunk with no attribution key
adds nothing; a chunk whose key was already seen adds nothing; otherwise its
entry is appended and the key recorded. -/
def extractSources : List Chunk → List String → List SourceEntry
  | [], _ => []
  | d :: ds, seen =>
    match sourceKey d with
    | none => extractSources ds seen
    | some k =>
      if seen.contains k then extractSources ds seen
      else entryOf d :: extractSources ds (k :: seen)

/-- Python dict assignment on an association list: replace in place if the key
exists, else append. -/
def insertAssoc {α : Type} (k : String) (v : α) : List (String × α) → List (String × α)
  | [] => [(k, v)]
  | (k', v') :: rest => if k' == k then (k, v) :: rest else (k', v') :: insertAssoc k v rest

/-- Python `del dict[key]` on an association list. -/
def eraseAssoc {α : Type} (k : String) (l : List (String × α)) : List (String × α) :=
  l.filter (fun p => !(p.1 == k))

/-- Python `key in dict` on an association list. -/
def containsKey {α : Type} (k : String) (l : List (String × α)) : Bool :=
  l.any (fun p => p.1 == k)

/-- The mutable state of a `RAGEngine` instance: `document_store` maps a
document id to its chunks, `vectorstores` maps a document id to its FAISS
index.  An index is modelled by the list of chunks it indexes (what
`FAISS.from_documents` is built over). -/
structure EngineState where
  documentStore : List (String × List Chunk) := []
  vectorstores : List (String × List Chunk) := []
deriving Repr, DecidableEq

/-- `RAGEngine.add_documents` (lines 45-59).  The chunk list is stored first;
then the index is built (`FAISS.from_documents`, which embeds the chunks and
may fail — the `embed` oracle models it); only on success is the index stored.
The returned pair is (raised exception or unit, state after the call). -/
def addDocuments (embed : List Chunk → Except String (List Chunk))
    (st : EngineState) (id : String) (chunks : List Chunk) :
    Except String Unit × EngineState :=
  let st1 : EngineState := { st with documentStore := insertAssoc id chunks st.documentStore }
  match embed chunks with
  | .error e => (.error e, st1)
  | .ok idx => (.ok (), { st1 with vectorstores := insertAssoc id idx st1.vectorstores })

/-- `RAGEngine.list_documents` (lines 402-404): the keys of `vectorstores`. -/
def listDocuments (st : EngineState) : List String :=
  st.vectorstores.map (fun p => p.1)

/-- `RAGEngine.remove_document` (lines 406-413): if the id has a vectorstore,
delete both the index and the chunk list and return true; else return false
and leave the state unchanged. -/
def removeDocument (st : EngineState) (id : String) : Bool × EngineState :=
  if containsKey id st.vectorstores then
    (true, { documentStore := eraseAssoc id st.documentStore,
             vectorstores := eraseAssoc id st.vectorstores })
  else (false, st)

/-- The id filter at the top of `ask` (line 175): keep only requested ids
that have a vectorstore. -/
def searchIds (st : EngineState) (ids : List String) : List String :=
  ids.filter (fun i => containsKey i st.vectorstores)

/-- The document-retrieval part of `ask` (lines 174-196).  `docRetrieve`
models `retriever.invoke(question)` for one indexed document; its failures
(e.g. query-embedding failures) are NOT caught by the Python code, so they
propagate.  Returns (all chunks retrieved from documents, `has_documents`). -/
def retrieveDocsStage (docRetrieve : String → String → Except String (List Chunk))
    (st : EngineState) (question : String) (ids : List String) :
    Except String (List Chunk × Bool) :=
  if ids.isEmpty then .ok ([], false)
  else
    let sids := searchIds st ids
    if sids.isEmpty then .ok ([], false)
    else
      match sids.mapM (fun i => docRetrieve i question) with
      | .error e => .error e
      | .ok chunkLists => .ok (chunkLists.flatten, true)

/-- The URL part of `ask` (lines 198-229).  `urlFetch` models the whole
`try` block (crawl, temporary index, retrieval); any failure is caught and
treated as zero results.  `has_url` is set before the `try`, so it is true
even when the fetch fails. -/
def retrieveUrlStage (urlFetch : String → String → Except String (List Chunk))
    (question : String) (url : Option String) : List Chunk × Bool :=
  match truthyStr url with
  | none => ([], false)
  | some u =>
    match urlFetch u question with
    | .ok docs => (docs, true)
    | .error _ => ([], true)

/-- The `source_type` classification of `ask` (lines 231-240): "both" / "url"
/ "document" from the flags, overridden to "general" when no chunks at all
were retrieved. -/
def classifySourceType (hasDocs hasUrl : Bool) (allDocs : List Chunk) : String :=
  let s := if hasDocs && hasUrl then "both" else if hasUrl then "url" else "document"
  if allDocs.isEmpty then "general" else s

/-- The `user_context` argument of `ask`: a dict whose only read key is
`previous_context`. -/
structure UserContext where
  previousContext : Option String := none
deriving Repr, DecidableEq

/-- One message of `conversation_history`. -/
structure ChatMsg where
  role : String
  content : String
deriving Repr, DecidableEq

/-- `if user_context and user_context.get("previous_context")`: the
cross-session context, when present and non-empty. -/
def prevContextOf (uc : Option UserContext) : Option String :=
  match uc with
  | none => none
  | some u => truthyStr u.previousContext

/-- One line of the current-conversation block (lines 272-276). -/
def msgLine (m : ChatMsg) : String :=
  (if m.role == "user" then "[User] " else "[Assistant] ") ++ m.content

/-- Result of the history-assembly block: the `history_lines` list and
whether the in-process Memory Store was consulted (i.e. whether the
`elif session_id:` branch ran). -/
structure HistoryResult where
  lines : List String
  memoryConsulted : Bool
deriving Repr, DecidableEq

/-- The history-assembly block of `ask` (lines 255-296): the cross-session
context block first when truthy; then the caller-supplied conversation
history when non-empty, OTHERWISE (`elif session_id:`) the memory manager is
consulted and its chat history appended when non-blank.  `memLookup` models
`get_memory_manager().get_chat_history(session_id)`, with `none` covering
both an empty history and a raised-and-caught exception. -/
def buildHistory (uc : Option UserContext) (conv : List ChatMsg)
    (sid : Option String) (memLookup : String → Option String) : HistoryResult :=
  let l1 : List String :=
    match prevContextOf uc with
    | some p => ["[PREVIOUS CHATS CONTEXT]\n" ++ p]
    | none => []
  if conv.length > 0 then
    { lines := l1 ++ conv.map msgLine, memoryConsulted := false }
  else
    match truthyStr sid with
    | some s =>
      let memLines : List String :=
        match memLookup s with
        | some h => if isBlank h then [] else ["[CURRENT SESSION HISTORY]\n" ++ h]
        | none => []
      { lines := l1 ++ memLines, memoryConsulted := true }
    | none => { lines := l1, memoryConsulted := false }

/-- A `langchain` `PromptTemplate`: input variable names plus template text. -/
structure PromptTemplate where
  inputVariables : List String
  template : String
deriving Repr, DecidableEq

/-- The template string built in `_get_prompt_template` when
`include_history` is true (rag_engine.py lines 87-136), verbatim. -/
def historyTemplate : String :=
  "You are an intelligent, precise, and extraction-focused assistant with document, URL, and Google Calendar management capabilities.

Your primary responsibility is to answer the user’s question accurately and efficiently, following the rules below.

CORE CAPABILITIES
You can answer questions based on uploaded documents and provided URLs.
You can understand and respond to general questions and greetings naturally when no document or URL context is required.
You can detect abusive, offensive, or inappropriate language and respond with a firm, professional, and strict reply without being rude.
You can understand natural language date and time expressions such as tomorrow at 2 pm, 21 February at noon, next Monday evening, etc.
When a user asks to schedule, book, or set up a meeting, you must extract the date and time and create the event in Google Calendar, then confirm it clearly.

DOCUMENT AND URL RULES
If document or URL content is provided, you must answer strictly using only that content.
Do not use external knowledge when a document or URL is available.
Search the provided content thoroughly before answering.
Extract only clear, meaningful, and relevant information.
Ignore OCR noise, broken words, random symbols, or unclear text.
If the requested information is not found in the provided content, respond that it is not available in the document or URL.
When answering from a document or URL, clearly acknowledge that the information comes from it.

OUT-OF-CONTEXT AND GENERAL QUERIES
If the question is unrelated to the provided document or URL, respond naturally and conversationally.
Handle greetings, casual conversation, and general questions like a normal helpful assistant.
Do not force document-based behavior when it is not required.

ABUSIVE LANGUAGE HANDLING
If the user uses abusive, offensive, or harmful language, respond strictly and professionally.
Do not answer the abusive request.
Do not be sarcastic or friendly in such cases.

MEETING AND CALENDAR RULES
If the user asks to schedule or book a meeting, extract the date and time from the message.
Create the meeting in Google Calendar automatically.
Confirm the meeting clearly and specifically, for example:
“Your meeting has been scheduled for 21 February at 12:00 PM.”
Never say you do not have calendar capabilities.

ANSWER STYLE
Answer only what the user asked.
Keep responses minimal, clear, and highly relevant.
Cover everything the user needs to know for that specific question without unnecessary explanation.
Avoid repetition and filler text.
Use plain sentences and short paragraphs only when helpful.
Do not use special symbols such as the asterisk character anywhere in the response.

INPUT STRUCTURE
Context: {context}
Uploaded Document Content: {document_content}
User Question: {input}
"

/-- `RAGEngine._get_prompt_template` (lines 79-141): when `include_history`
is true it returns the history template; the function has NO `else` branch,
so with `include_history = False` it falls off the end and returns `None`
(despite its `-> PromptTemplate` annotation). -/
def getPromptTemplate (includeHistory : Bool) : Option PromptTemplate :=
  if includeHistory then
    some { inputVariables := ["context", "document_content", "input"],
           template := historyTemplate }
  else
    none

/-- Python `str.format` (the f-string formatting `PromptTemplate` performs):
scan the template, copying characters; inside a `\x7bname\x7d` placeholder
(`mode = some nameAcc`, the name accumulated in reverse) substitute the
variable's value at the closing brace.  Only the plain-placeholder subset the
template uses is modelled: no escaped braces, format specs or auto-numbered
fields occur; a name missing from `vars` would raise `KeyError` in Python and
is modelled as an empty substitution (never exercised: the chain supplies
every name the template mentions); extra supplied names are ignored, as
`str.format` ignores unused keyword arguments. -/
def scanFmt (vars : List (String × String)) (mode : Option (List Char)) : List Char → List Char
  | [] => []
  | c :: cs =>
    match mode with
    | none =>
      if c = Char.ofNat 123 then scanFmt vars (some []) cs
      else c :: scanFmt vars none cs
    | some nameAcc =>
      if c = Char.ofNat 125 then
        ((vars.lookup (String.mk nameAcc.reverse)).getD "").data ++ scanFmt vars none cs
      else scanFmt vars (some (c :: nameAcc)) cs

/-- The placeholder names of a template, scanned exactly as `scanFmt` scans
them. -/
def scanNames (mode : Option (List Char)) : List Char → List String
  | [] => []
  | c :: cs =>
    match mode with
    | none =>
      if c = Char.ofNat 123 then scanNames (some []) cs
      else scanNames none cs
    | some nameAcc =>
      if c = Char.ofNat 125 then String.mk nameAcc.reverse :: scanNames none cs
      else scanNames (some (c :: nameAcc)) cs

/-- Format a template string with the given variable assignment
(`PromptTemplate` invocation = `str.format` on its template text). -/
def formatTemplate (tmpl : String) (vars : List (String × String)) : String :=
  String.mk (scanFmt vars none tmpl.data)

/-- The placeholder names a template text mentions. -/
def templatePlaceholders (tmpl : String) : List String :=
  scanNames none tmpl.data

/-- The prompt the has-history chain of `ask` produces (lines 298-321): the
history template formatted with the mapping the chain dict supplies —
`chat_history`, `context`, `document_content` (both bound to the formatted
docs) and `input`. -/
def historyChainPrompt (chatHistoryStr contextStr question : String) : String :=
  formatTemplate historyTemplate
    [("chat_history", chatHistoryStr), ("context", contextStr),
     ("document_content", contextStr), ("input", question)]

/-- A character that does not open a placeholder. -/
def noBrace (c : Char) : Bool := !(c = Char.ofNat 123)

/-- Substring test on character lists (used to state what a prompt does or
does not contain). -/
def containsSeq (pat : List Char) : List Char → Bool
  | [] => pat.isEmpty
  | c :: cs => pat.isPrefixOf (c :: cs) || containsSeq pat cs

/-- First quarter of `historyTemplate` (characters 0-699).  The template is
split into four literal pieces, proved to reassemble to `historyTemplate`
below, so that concrete computations over it stay within the proof
assistant's recursion limits; all braces lie in the fourth piece. -/
def historyTemplatePart1 : String :=
  "You are an intelligent, precise, and extraction-focused assistant with document, URL, and Google Calendar management capabilities.\n\nYour primary responsibility is to answer the user’s question accurately and efficiently, following the rules below.\n\nCORE CAPABILITIES\nYou can answer questions based on uploaded documents and provided URLs.\nYou can understand and respond to general questions and greetings naturally when no document or URL context is required.\nYou can detect abusive, offensive, or inappropriate language and respond with a firm, professional, and strict reply without being rude.\nYou can understand natural language date and time expressions such as tomorrow at 2 pm, 21 February at "

/-- Second quarter of `historyTemplate` (characters 700-1399). -/
def historyTemplatePart2 : String :=
  "noon, next Monday evening, etc.\nWhen a user asks to schedule, book, or set up a meeting, you must extract the date and time and create the event in Google Calendar, then confirm it clearly.\n\nDOCUMENT AND URL RULES\nIf document or URL content is provided, you must answer strictly using only that content.\nDo not use external knowledge when a document or URL is available.\nSearch the provided content thoroughly before answering.\nExtract only clear, meaningful, and relevant information.\nIgnore OCR noise, broken words, random symbols, or unclear text.\nIf the requested information is not found in the provided content, respond that it is not available in the document or URL.\nWhen answering from a doc"

/-- Third quarter of `historyTemplate` (characters 1400-2099). -/
def historyTemplatePart3 : String :=
  "ument or URL, clearly acknowledge that the information comes from it.\n\nOUT-OF-CONTEXT AND GENERAL QUERIES\nIf the question is unrelated to the provided document or URL, respond naturally and conversationally.\nHandle greetings, casual conversation, and general questions like a normal helpful assistant.\nDo not force document-based behavior when it is not required.\n\nABUSIVE LANGUAGE HANDLING\nIf the user uses abusive, offensive, or harmful language, respond strictly and professionally.\nDo not answer the abusive request.\nDo not be sarcastic or friendly in such cases.\n\nMEETING AND CALENDAR RULES\nIf the user asks to schedule or book a meeting, extract the date and time from the message.\nCreate the m"

/-- Final piece of `historyTemplate` (characters 2100-2793), holding the
three placeholders. -/
def historyTemplatePart4 : String :=
  "eeting in Google Calendar automatically.\nConfirm the meeting clearly and specifically, for example:\n“Your meeting has been scheduled for 21 February at 12:00 PM.”\nNever say you do not have calendar capabilities.\n\nANSWER STYLE\nAnswer only what the user asked.\nKeep responses minimal, clear, and highly relevant.\nCover everything the user needs to know for that specific question without unnecessary explanation.\nAvoid repetition and filler text.\nUse plain sentences and short paragraphs only when helpful.\nDo not use special symbols such as the asterisk character anywhere in the response.\n\nINPUT STRUCTURE\nContext: {context}\nUploaded Document Content: {document_content}\nUser Question: {input}\n"

/-- First half of `historyTemplate` (characters 0-1399), an intermediate
piece for the reassembly proof. -/
def historyTemplateHalf1 : String :=
  "You are an intelligent, precise, and extraction-focused assistant with document, URL, and Google Calendar management capabilities.\n\nYour primary responsibility is to answer the user’s question accurately and efficiently, following the rules below.\n\nCORE CAPABILITIES\nYou can answer questions based on uploaded documents and provided URLs.\nYou can understand and respond to general questions and greetings naturally when no document or URL context is required.\nYou can detect abusive, offensive, or inappropriate language and respond with a firm, professional, and strict reply without being rude.\nYou can understand natural language date and time expressions such as tomorrow at 2 pm, 21 February at noon, next Monday evening, etc.\nWhen a user asks to schedule, book, or set up a meeting, you must extract the date and time and create the event in Google Calendar, then confirm it clearly.\n\nDOCUMENT AND URL RULES\nIf document or URL content is provided, you must answer strictly using only that content.\nDo not use external knowledge when a document or URL is available.\nSearch the provided content thoroughly before answering.\nExtract only clear, meaningful, and relevant information.\nIgnore OCR noise, broken words, random symbols, or unclear text.\nIf the requested information is not found in the provided content, respond that it is not available in the document or URL.\nWhen answering from a doc"

/-- Second half of `historyTemplate` (characters 1400-2793). -/
def historyTemplateHalf2 : String :=
  "ument or URL, clearly acknowledge that the information comes from it.\n\nOUT-OF-CONTEXT AND GENERAL QUERIES\nIf the question is unrelated to the provided document or URL, respond naturally and conversationally.\nHandle greetings, casual conversation, and general questions like a normal helpful assistant.\nDo not force document-based behavior when it is not required.\n\nABUSIVE LANGUAGE HANDLING\nIf the user uses abusive, offensive, or harmful language, respond strictly and professionally.\nDo not answer the abusive request.\nDo not be sarcastic or friendly in such cases.\n\nMEETING AND CALENDAR RULES\nIf the user asks to schedule or book a meeting, extract the date and time from the message.\nCreate the meeting in Google Calendar automatically.\nConfirm the meeting clearly and specifically, for example:\n“Your meeting has been scheduled for 21 February at 12:00 PM.”\nNever say you do not have calendar capabilities.\n\nANSWER STYLE\nAnswer only what the user asked.\nKeep responses minimal, clear, and highly relevant.\nCover everything the user needs to know for that specific question without unnecessary explanation.\nAvoid repetition and filler text.\nUse plain sentences and short paragraphs only when helpful.\nDo not use special symbols such as the asterisk character anywhere in the response.\n\nINPUT STRUCTURE\nContext: {context}\nUploaded Document Content: {document_content}\nUser Question: {input}\n"

/-- `metadata.get("page", "N/A")` rendered into the context block. -/
def pageStr : Option Int → String
  | some n => toString n
  | none => "N/A"

/-- One block of `RAGEngine._format_docs` (lines 61-77), `.strip()` applied. -/
def formatDoc (i : Nat) (d : Chunk) : String :=
  String.mk (stripEnds ("Document " ++ toString i ++ ":\nSource: "
    ++ d.filename.getD "Unknown" ++ "\nPage: " ++ pageStr d.page
    ++ "\n\nContent:\n" ++ d.pageContent ++ "\n").data)

/-- `RAGEngine._format_docs`: blocks numbered from 1, joined by a rule. -/
def formatDocs (docs : List Chunk) : String :=
  String.intercalate "\n\n---\n\n" (docs.enum.map (fun p => formatDoc (p.1 + 1) p.2))

/-- `ModelService.PROVIDER_NAMES` (model_service.py line 24). -/
def PROVIDER_NAMES : List String := ["gemini", "openrouter", "groq"]

/-- The validation prefix of `ModelService.get_provider` (lines 26-48): an
unknown provider or a blank API key (`not api_key or not api_key.strip()`)
raises a `ValueError`; otherwise validation passes. -/
def validateProviderConfig (provider apiKey : String) : Except String Unit :=
  if !(PROVIDER_NAMES.contains provider) then
    .error ("Invalid provider: " ++ provider)
  else if isBlank apiKey then
    .error ("API key is required for " ++ provider)
  else .ok ()

/-- `ModelService.get_provider`: validate, then construct the provider
instance (`construct` models the provider-class constructor; the handle is an
opaque string). -/
def getProvider (construct : String → String → String → Except String String)
    (provider model apiKey : String) : Except String String :=
  match validateProviderConfig provider apiKey with
  | .error e => .error e
  | .ok _ => construct provider model apiKey

/-- The `question` field validator of `ChatRequest` (models.py lines 47-53,
together with `min_length=1`): a question that is empty or whitespace-only is
rejected at request parsing; otherwise the stripped question passes. -/
def validateQuestion (q : String) : Except String String :=
  if isBlank q then .error "Question cannot be empty"
  else .ok (String.mk (stripEnds q.data))

/-- The external effects of `ask`, as oracles.  `llmGenerate` models
`llm.invoke`: it receives the provider handle and the fully formatted prompt
string (the output of the `prompt` step of the chain) and returns the raw
generation. -/
structure AskOracles where
  docRetrieve : String → String → Except String (List Chunk)
  urlFetch : String → String → Except String (List Chunk)
  construct : String → String → String → Except String String
  memLookup : String → Option String
  llmGenerate : String → String → Except String String

/-- The value returned by `ask` (lines 389-394). -/
structure AskResult where
  answer : String
  sources : List SourceEntry
  provider : String
  model : String
deriving Repr, DecidableEq

/-- `RAGEngine.ask` (lines 143-394): document retrieval (failures propagate),
URL retrieval (failures absorbed), source-type classification, provider
initialization (failures re-raised with a `Provider initialization failed:`
prefix), history assembly, prompt selection (`None` when there is no history,
which makes the chain construction fail — modelled as an error), generation
(failures re-raised), sanitization, and source extraction. -/
def askModel (o : AskOracles) (st : EngineState)
    (question provider model apiKey : String) (ids : List String)
    (url : Option String) (sid : Option String) (conv : List ChatMsg)
    (uc : Option UserContext) : Except String AskResult :=
  match retrieveDocsStage o.docRetrieve st question ids with
  | .error e => .error e
  | .ok (docChunks, hasDocs) =>
    let urlRes := retrieveUrlStage o.urlFetch question url
    let allDocs := docChunks ++ urlRes.1
    let _sourceType := classifySourceType hasDocs urlRes.2 allDocs
    match getProvider o.construct provider model apiKey with
    | .error e => .error ("Provider initialization failed: " ++ e)
    | .ok llm =>
      let hist := buildHistory uc conv sid o.memLookup
      let hasHistory := !hist.lines.isEmpty
      let chatHistoryStr := String.intercalate "\n\n" hist.lines
      match getPromptTemplate hasHistory with
      | none => .error "prompt template is None"
      | some tmpl =>
        let contextStr := if allDocs.isEmpty then "" else formatDocs allDocs
        let promptStr := formatTemplate tmpl.template
          [("chat_history", chatHistoryStr), ("context", contextStr),
           ("document_content", contextStr), ("input", question)]
        match o.llmGenerate llm promptStr with
        | .error e => .error e
        | .ok raw =>
          .ok { answer := sanitize raw, sources := extractSources allDocs [],
                provider := provider, model := model }

/-! ## Theorems about the claims -/

/-- C1: the claim says the Prompt Composer selects one of two fixed templates
from the boolean "has any history" and that a prompt is produced in every
case, with the no-history template used (context left empty) when there is no
history.  The code refutes this: `_get_prompt_template` has no `else` branch,
so in the no-history case it returns `None` (violating its own
`-> PromptTemplate` annotation) and no prompt at all is produced — only the
with-history template exists. -/
theorem C1_prompt_template_none_without_history :
    getPromptTemplate false = none ∧ getPromptTemplate true ≠ none := by
  refine ⟨rfl, ?_⟩
  simp [getPromptTemplate]

/-- C5: the sanitizer applies, in order: reasoning-tag-block removal, then
emphasis/code-fence character removal, then dropping non-printables except
newline and tab, then collapsing 3+ newlines to 2 (and the final strip); and
on the spec's concrete example it yields exactly `"Hello world"`. -/
theorem C5_sanitizer_pipeline :
    (∀ s : String, sanitize s = String.mk (stripEnds (collapseBlankLines
        (dropNonPrintable (removeEmphasisChars (removeReasoningBlocks s.data))))))
    ∧ sanitize "<think>x</think>Hello **world**```" = "Hello world" :=
  ⟨fun _ => rfl, by decide⟩

/-- Helper for C10: a run of chunks that all lack an attribution key
contributes no source entry, whatever the seen-set. -/
theorem extractSources_all_none (ds : List Chunk) :
    ∀ seen : List String, (∀ d ∈ ds, sourceKey d = none) → extractSources ds seen = [] := by
  induction ds with
  | nil => intro seen _; rfl
  | cons d ds ih =>
    intro seen h
    have hd : sourceKey d = none := h d (List.mem_cons_self d ds)
    rw [extractSources, hd]
    exact ih seen (fun x hx => h x (List.mem_cons_of_mem d hx))

/-- C10: a retrieved chunk whose metadata lacks the attribution key (no
truthy `filename` for a document chunk, no truthy `source_url` for a url
chunk) adds no entry to the `sources` list; in particular the list can be
empty although chunks were retrieved. -/
theorem C10_no_attribution_no_entry :
    (∀ (d : Chunk) (ds : List Chunk) (seen : List String), sourceKey d = none →
        extractSources (d :: ds) seen = extractSources ds seen)
    ∧ (∀ ds : List Chunk, (∀ d ∈ ds, sourceKey d = none) → extractSources ds [] = [])
    ∧ extractSources [{ pageContent := "grounded text" }] [] = [] := by
  refine ⟨?_, ?_, rfl⟩
  · intro d ds seen h
    rw [extractSources, h]
  · intro ds h
    exact extractSources_all_none ds [] h

/-- Witness for C10 at concrete inputs: a chunk with no filename metadata is
skipped, and a retrieval consisting only of such chunks yields an empty
sources list. -/
theorem C10_no_attribution_no_entry_witness :
    extractSources [{ pageContent := "c1" }, { pageContent := "c2", filename := some "a.pdf" }] []
        = extractSources [{ pageContent := "c2", filename := some "a.pdf" }] []
    ∧ extractSources [{ pageContent := "x" }] [] = [] :=
  ⟨C10_no_attribution_no_entry.1 _ _ _ rfl,
   C10_no_attribution_no_entry.2.1 _ (by decide)⟩

/-- C6: the sources list is deduplicated by attribution key (filename, or
source URL for url chunks); the first chunk per key determines the entry
(including page and section) and later chunks with a seen key add nothing;
three chunks from one file plus one from another yield exactly 2 entries. -/
theorem C6_sources_deduplicated :
    (∀ (c1 c2 c3 c4 : Chunk) (f1 f2 : String),
        sourceKey c1 = some f1 → sourceKey c2 = some f1 → sourceKey c3 = some f1 →
        sourceKey c4 = some f2 → f1 ≠ f2 →
        extractSources [c1, c2, c3, c4] [] = [entryOf c1, entryOf c4]
        ∧ (extractSources [c1, c2, c3, c4] []).length = 2)
    ∧ (∀ (d : Chunk) (ds : List Chunk) (seen : List String) (k : String),
        sourceKey d = some k → seen.contains k = true →
        extractSources (d :: ds) seen = extractSources ds seen) := by
  constructor
  · intro c1 c2 c3 c4 f1 f2 h1 h2 h3 h4 hne
    have key : extractSources [c1, c2, c3, c4] [] = [entryOf c1, entryOf c4] := by
      simp [extractSources, h1, h2, h3, h4, hne, Ne.symm hne]
    exact ⟨key, by rw [key]; rfl⟩
  · intro d ds seen k h hseen
    have hk : k ∈ seen := by simpa using hseen
    rw [extractSources, h]
    simp [hk]

/-- Witness for C6: three chunks from `a.pdf` and one from `b.pdf` produce
exactly the two entries of the respective first chunks. -/
theorem C6_sources_deduplicated_witness :
    extractSources
        [{ pageContent := "p1", filename := some "a.pdf", page := some 1, sectionName := some "intro" },
         { pageContent := "p2", filename := some "a.pdf", page := some 2 },
         { pageContent := "p3", filename := some "a.pdf", page := some 3 },
         { pageContent := "q", filename := some "b.pdf", page := some 7 }] []
      = [entryOf { pageContent := "p1", filename := some "a.pdf", page := some 1, sectionName := some "intro" },
         entryOf { pageContent := "q", filename := some "b.pdf", page := some 7 }]
    ∧ (extractSources
        [{ pageContent := "p1", filename := some "a.pdf", page := some 1, sectionName := some "intro" },
         { pageContent := "p2", filename := some "a.pdf", page := some 2 },
         { pageContent := "p3", filename := some "a.pdf", page := some 3 },
         { pageContent := "q", filename := some "b.pdf", page := some 7 }] []).length = 2 :=
  C6_sources_deduplicated.1 _ _ _ _ "a.pdf" "b.pdf" rfl rfl rfl rfl (by decide)

set_option maxRecDepth 3000 in
/-- The two halves reassemble to the first half of the template. -/
theorem half1_split : historyTemplateHalf1 = historyTemplatePart1 ++ historyTemplatePart2 := rfl

set_option maxRecDepth 3000 in
/-- The last two quarters reassemble to the second half of the template. -/
theorem half2_split : historyTemplateHalf2 = historyTemplatePart3 ++ historyTemplatePart4 := rfl

set_option maxRecDepth 3000 in
/-- The halves reassemble to the full template. -/
theorem template_split0 : historyTemplate = historyTemplateHalf1 ++ historyTemplateHalf2 := rfl

/-- The four quarters reassemble to the full template, at character level. -/
theorem historyTemplate_data_split :
    historyTemplate.data
      = historyTemplatePart1.data
        ++ (historyTemplatePart2.data ++ (historyTemplatePart3.data ++ historyTemplatePart4.data)) := by
  rw [template_split0, half1_split, half2_split]
  show (historyTemplatePart1.data ++ historyTemplatePart2.data)
      ++ (historyTemplatePart3.data ++ historyTemplatePart4.data) = _
  rw [List.append_assoc]

/-- `str.format` copies a brace-free prefix verbatim. -/
theorem scanFmt_copy_nobrace (v : List (String × String)) :
    ∀ (pre rest : List Char), pre.all noBrace = true →
      scanFmt v none (pre ++ rest) = pre ++ scanFmt v none rest := by
  intro pre
  induction pre with
  | nil => intro rest _; rfl
  | cons c cs ih =>
    intro rest h
    rw [List.all_cons, Bool.and_eq_true] at h
    have hc : ¬(c = Char.ofNat 123) := by
      intro hcc
      simp [noBrace, hcc] at h
    rw [List.cons_append, scanFmt]
    simp only [if_neg hc]
    rw [ih rest h.2, List.cons_append]

/-- A brace-free prefix holds no placeholder names. -/
theorem scanNames_skip_nobrace :
    ∀ (pre rest : List Char), pre.all noBrace = true →
      scanNames none (pre ++ rest) = scanNames none rest := by
  intro pre
  induction pre with
  | nil => intro rest _; rfl
  | cons c cs ih =>
    intro rest h
    rw [List.all_cons, Bool.and_eq_true] at h
    have hc : ¬(c = Char.ofNat 123) := by
      intro hcc
      simp [noBrace, hcc] at h
    rw [List.cons_append, scanNames]
    simp only [if_neg hc]
    exact ih rest h.2

set_option maxRecDepth 3000 in
/-- The first quarter of the template has no opening brace. -/
theorem part1_nobrace : historyTemplatePart1.data.all noBrace = true := by decide

set_option maxRecDepth 3000 in
/-- The second quarter of the template has no opening brace. -/
theorem part2_nobrace : historyTemplatePart2.data.all noBrace = true := by decide

set_option maxRecDepth 3000 in
/-- The third quarter of the template has no opening brace. -/
theorem part3_nobrace : historyTemplatePart3.data.all noBrace = true := by decide

set_option maxRecDepth 3000 in
/-- The placeholders of the final quarter of the template. -/
theorem part4_names :
    scanNames none historyTemplatePart4.data = ["context", "document_content", "input"] := by decide

/-- The with-history template mentions exactly the placeholders `context`,
`document_content` and `input` — in particular no `chat_history`. -/
theorem templatePlaceholders_history :
    templatePlaceholders historyTemplate = ["context", "document_content", "input"] := by
  unfold templatePlaceholders
  rw [historyTemplate_data_split,
      scanNames_skip_nobrace _ _ part1_nobrace, scanNames_skip_nobrace _ _ part2_nobrace,
      scanNames_skip_nobrace _ _ part3_nobrace, part4_names]

/-- Formatting depends only on the values of the names the template mentions
(`str.format` ignores unused keyword arguments). -/
theorem scanFmt_ext :
    ∀ (cs : List Char) (mode : Option (List Char)) (v1 v2 : List (String × String)),
      (∀ n ∈ scanNames mode cs, v1.lookup n = v2.lookup n) →
      scanFmt v1 mode cs = scanFmt v2 mode cs := by
  intro cs
  induction cs with
  | nil => intro mode v1 v2 _; rfl
  | cons c cs ih =>
    intro mode v1 v2 h
    cases mode with
    | none =>
      by_cases hc : c = Char.ofNat 123
      · rw [scanFmt, scanFmt]
        simp only [if_pos hc]
        apply ih
        intro n hn
        apply h
        rw [scanNames, if_pos hc]
        exact hn
      · rw [scanFmt, scanFmt]
        simp only [if_neg hc]
        rw [ih none v1 v2 (fun n hn => h n (by rw [scanNames, if_neg hc]; exact hn))]
    | some nameAcc =>
      by_cases hc : c = Char.ofNat 125
      · have hname : v1.lookup (String.mk nameAcc.reverse)
            = v2.lookup (String.mk nameAcc.reverse) := by
          apply h
          rw [scanNames]
          simp only [if_pos hc]
          exact List.mem_cons_self _ _
        rw [scanFmt, scanFmt]
        simp only [if_pos hc]
        rw [hname, ih none v1 v2 (fun n hn => h n
          (by rw [scanNames]; simp only [if_pos hc]; exact List.mem_cons_of_mem _ hn))]
      · rw [scanFmt, scanFmt]
        simp only [if_neg hc]
        exact ih _ v1 v2 (fun n hn => h n (by rw [scanNames]; simp only [if_neg hc]; exact hn))

/-- The prompt the has-history chain produces is independent of the assembled
chat history: the template has no `chat_history` placeholder, so the value is
dropped at formatting. -/
theorem historyChainPrompt_ignores_history (h h' c q : String) :
    historyChainPrompt h c q = historyChainPrompt h' c q := by
  show String.mk _ = String.mk _
  apply congrArg String.mk
  apply scanFmt_ext
  intro n hn
  rw [show scanNames none historyTemplate.data = templatePlaceholders historyTemplate from rfl,
      templatePlaceholders_history] at hn
  simp only [List.mem_cons, List.not_mem_nil, or_false] at hn
  rcases hn with rfl | rfl | rfl <;> rfl

/-- A string can only contain patterns no longer than itself. -/
theorem containsSeq_length :
    ∀ (l pat : List Char), containsSeq pat l = true → pat.length ≤ l.length := by
  intro l
  induction l with
  | nil =>
    intro pat h
    rw [containsSeq, List.isEmpty_iff] at h
    simp [h]
  | cons c cs ih =>
    intro pat h
    rw [containsSeq, Bool.or_eq_true] at h
    rcases h with h | h
    · exact (List.isPrefixOf_iff_prefix.mp h).length_le
    · exact Nat.le_succ_of_le (ih pat h)

/-- A string built from a non-empty character list is not empty. -/
theorem mk_cons_isEmpty_false (c : Char) (l : List Char) :
    (String.mk (c :: l)).isEmpty = false := by
  simp [String.isEmpty, String.Pos.ext_iff]
  have := Char.utf8Size_pos c
  omega

set_option maxRecDepth 3000 in
/-- Length of the first quarter of the template. -/
theorem part1_len : historyTemplatePart1.data.length = 700 := by decide

set_option maxRecDepth 3000 in
/-- Length of the second quarter of the template. -/
theorem part2_len : historyTemplatePart2.data.length = 700 := by decide

set_option maxRecDepth 3000 in
/-- Length of the third quarter of the template. -/
theorem part3_len : historyTemplatePart3.data.length = 700 := by decide

set_option maxRecDepth 3000 in
/-- Length of the formatted final quarter under empty context and the
one-character question `q`. -/
theorem part4_fmt_len :
    (scanFmt [("chat_history", ""), ("context", ""), ("document_content", ""), ("input", "q")]
      none historyTemplatePart4.data).length = 661 := by decide

/-- Length of the full formatted prompt with no history, empty context and
question `q`. -/
theorem prompt_len : (historyChainPrompt "" "" "q").data.length = 2761 := by
  show (scanFmt _ none historyTemplate.data).length = 2761
  rw [historyTemplate_data_split,
      scanFmt_copy_nobrace _ _ _ part1_nobrace, scanFmt_copy_nobrace _ _ _ part2_nobrace,
      scanFmt_copy_nobrace _ _ _ part3_nobrace]
  simp only [List.length_append, part1_len, part2_len, part3_len, part4_fmt_len]

/-- When cross-session context is present and the caller-supplied
conversation history is non-empty, the history lines are the cross-session
block followed by the conversation lines, and the Memory Store is not
consulted. -/
theorem buildHistory_both (uc : Option UserContext) (conv : List ChatMsg)
    (sid : Option String) (mem : String → Option String) (p : String)
    (hp : prevContextOf uc = some p) (hconv : conv ≠ []) :
    (buildHistory uc conv sid mem).lines
        = ("[PREVIOUS CHATS CONTEXT]\n" ++ p) :: conv.map msgLine
    ∧ (buildHistory uc conv sid mem).memoryConsulted = false := by
  have hlen : 0 < conv.length := List.length_pos.mpr hconv
  exact ⟨by simp [buildHistory, hp, hlen], by simp [buildHistory, hp, hlen]⟩

/-- Counterexample to C2, both halves of the claim.  At a qualifying input —
cross-session context present (a 3000-character block) and a non-empty
`conversation_history` — both history blocks are assembled, yet the resulting
prompt cannot contain the cross-session block in full: the prompt is 2761
characters long no matter the history (the with-history template has no
`chat_history` placeholder, so formatting drops the assembled history), and
indeed equals the prompt produced with no history at all.  Separately, with
cross-session context present, empty `conversation_history` and a session id,
the in-process Memory Store IS consulted (the `elif session_id:` branch
checks only `conversation_history`) and its content lands in the history
lines. -/
theorem C2_counterexample_prompt_and_memory :
    (buildHistory (some { previousContext := some (String.mk ('A' :: List.replicate 2999 'A')) })
        [{ role := "user", content := "HELLOMSG" }] none (fun _ => none)).lines
      = ["[PREVIOUS CHATS CONTEXT]\n" ++ String.mk ('A' :: List.replicate 2999 'A'),
         "[User] HELLOMSG"]
    ∧ containsSeq (String.mk ('A' :: List.replicate 2999 'A')).data
        (historyChainPrompt
          (String.intercalate "\n\n"
            ["[PREVIOUS CHATS CONTEXT]\n" ++ String.mk ('A' :: List.replicate 2999 'A'),
             "[User] HELLOMSG"]) "" "q").data = false
    ∧ historyChainPrompt
        (String.intercalate "\n\n"
          ["[PREVIOUS CHATS CONTEXT]\n" ++ String.mk ('A' :: List.replicate 2999 'A'),
           "[User] HELLOMSG"]) "" "q"
      = historyChainPrompt "" "" "q"
    ∧ "chat_history" ∉ templatePlaceholders historyTemplate
    ∧ (buildHistory (some { previousContext := some "PREV" }) [] (some "s1")
        (fun _ => some "MEMO")).memoryConsulted = true
    ∧ "[CURRENT SESSION HISTORY]\nMEMO"
        ∈ (buildHistory (some { previousContext := some "PREV" }) [] (some "s1")
            (fun _ => some "MEMO")).lines := by
  have hA : (String.mk ('A' :: List.replicate 2999 'A')).isEmpty = false :=
    mk_cons_isEmpty_false _ _
  have hprev : prevContextOf
      (some { previousContext := some (String.mk ('A' :: List.replicate 2999 'A')) })
      = some (String.mk ('A' :: List.replicate 2999 'A')) := by
    simp only [prevContextOf, truthyStr, hA, Bool.false_eq_true, if_false]
  refine ⟨?_, ?_, historyChainPrompt_ignores_history _ "" "" "q", ?_, rfl, by decide⟩
  · rw [(buildHistory_both _ _ _ _ _ hprev (by decide)).1]
    rfl
  · rcases Bool.eq_false_or_eq_true (containsSeq (String.mk ('A' :: List.replicate 2999 'A')).data
        (historyChainPrompt
          (String.intercalate "\n\n"
            ["[PREVIOUS CHATS CONTEXT]\n" ++ String.mk ('A' :: List.replicate 2999 'A'),
             "[User] HELLOMSG"]) "" "q").data) with htrue | hfalse
    · exfalso
      have hlen := containsSeq_length _ _ htrue
      rw [historyChainPrompt_ignores_history _ "" "" "q"] at hlen
      have h1 : (String.mk ('A' :: List.replicate 2999 'A')).data.length = 3000 := by
        show ('A' :: List.replicate 2999 'A').length = 3000
        rw [List.length_cons, List.length_replicate]
      rw [h1, prompt_len] at hlen
      omega
    · exact hfalse
  · rw [templatePlaceholders_history]
    decide

/-- C2 as amended: when both cross-session context and a non-empty
`conversation_history` are supplied, the internal history string holds both
blocks in that order and the Memory Store is not consulted; however the
resulting prompt contains neither block — the with-history template mentions
only `context`, `document_content` and `input`, so the formatted prompt is
the same whatever chat history is assembled.  The Memory Store is consulted
exactly when the caller-supplied conversation history is empty and a (truthy)
session id is given — regardless of cross-session context. -/
theorem C2_history_handling_amended :
    (∀ (uc : Option UserContext) (conv : List ChatMsg) (sid : Option String)
        (mem : String → Option String) (p : String),
        prevContextOf uc = some p → conv ≠ [] →
        (buildHistory uc conv sid mem).lines
            = ("[PREVIOUS CHATS CONTEXT]\n" ++ p) :: conv.map msgLine
        ∧ (buildHistory uc conv sid mem).memoryConsulted = false)
    ∧ (∀ h h' c q : String, historyChainPrompt h c q = historyChainPrompt h' c q)
    ∧ templatePlaceholders historyTemplate = ["context", "document_content", "input"]
    ∧ (∀ (uc : Option UserContext) (conv : List ChatMsg) (sid : Option String)
        (mem : String → Option String),
        (buildHistory uc conv sid mem).memoryConsulted = true
            ↔ conv = [] ∧ (truthyStr sid).isSome) := by
  refine ⟨fun uc conv sid mem p hp hconv => buildHistory_both uc conv sid mem p hp hconv,
          fun h h' c q => historyChainPrompt_ignores_history h h' c q,
          templatePlaceholders_history, ?_⟩
  · intro uc conv sid mem
    cases conv with
    | nil =>
      cases htr : truthyStr sid with
      | none => simp [buildHistory, htr]
      | some s => simp [buildHistory, htr]
    | cons m ms => simp [buildHistory]

/-- Witness for the amended C2 at concrete inputs. -/
theorem C2_history_handling_amended_witness :
    ((buildHistory (some { previousContext := some "PREV" })
        [{ role := "user", content := "hi" }] (some "s1") (fun _ => some "MEMO")).lines
      = ("[PREVIOUS CHATS CONTEXT]\n" ++ "PREV")
          :: ([{ role := "user", content := "hi" }] : List ChatMsg).map msgLine
    ∧ (buildHistory (some { previousContext := some "PREV" })
        [{ role := "user", content := "hi" }] (some "s1") (fun _ => some "MEMO")).memoryConsulted
      = false)
    ∧ historyChainPrompt "HISTORY A" "ctx" "q" = historyChainPrompt "HISTORY B" "ctx" "q" :=
  ⟨C2_history_handling_amended.1 _ _ _ _ "PREV" rfl (by decide),
   C2_history_handling_amended.2.1 "HISTORY A" "HISTORY B" "ctx" "q"⟩

/-- Counterexample to C3: with a failing embedding, `add_documents` has
already replaced the chunk list before the index build, so the state after
the failed call differs from the state before it — partial state IS
committed (the chunk list is updated without its matching index). -/
theorem C3_partial_state_on_embed_failure :
    (addDocuments (fun _ => .error "embedding failed") {} "d1" [{ pageContent := "x" }]).1
        = .error "embedding failed"
    ∧ (addDocuments (fun _ => .error "embedding failed") {} "d1" [{ pageContent := "x" }]).2
        ≠ ({} : EngineState)
    ∧ ((addDocuments (fun _ => .error "embedding failed") {} "d1" [{ pageContent := "x" }]).2).documentStore
        = [("d1", [{ pageContent := "x" }])]
    ∧ ((addDocuments (fun _ => .error "embedding failed") {} "d1" [{ pageContent := "x" }]).2).vectorstores
        = [] :=
  ⟨rfl, by decide, rfl, rfl⟩

/-- C3 as amended: `add_documents` replaces prior chunks under the id and on
success installs the fresh index atomically with them; it fails only if
embedding fails, but on such a failure the chunk list has already been
replaced while the vector-index map is left unchanged. -/
theorem C3_add_documents_amended :
    ∀ (embed : List Chunk → Except String (List Chunk)) (st : EngineState)
      (id : String) (chunks : List Chunk),
      (∀ e, embed chunks = .error e →
          addDocuments embed st id chunks
            = (.error e, { st with documentStore := insertAssoc id chunks st.documentStore }))
      ∧ (∀ idx, embed chunks = .ok idx →
          addDocuments embed st id chunks
            = (.ok (), { documentStore := insertAssoc id chunks st.documentStore,
                         vectorstores := insertAssoc id idx st.vectorstores })) := by
  intro embed st id chunks
  constructor
  · intro e he
    simp [addDocuments, he]
  · intro idx hi
    simp [addDocuments, hi]

/-- Witness for the amended C3: a concrete failing embedding commits the
chunk list but not the index. -/
theorem C3_add_documents_amended_witness :
    addDocuments (fun _ => .error "E") {} "d" [{ pageContent := "x" }]
      = (.error "E",
         { ({} : EngineState) with
             documentStore := insertAssoc "d" [{ pageContent := "x" }] ({} : EngineState).documentStore }) :=
  (C3_add_documents_amended _ {} "d" _).1 "E" rfl

/-- Deleting a key from an association list leaves no entry under that key. -/
theorem containsKey_eraseAssoc {α : Type} (k : String) (l : List (String × α)) :
    containsKey k (eraseAssoc k l) = false := by
  induction l with
  | nil => rfl
  | cons p rest ih =>
    by_cases h : p.1 = k
    · simp [eraseAssoc, containsKey, h, ih]
    · simp [eraseAssoc, containsKey, h, ih]

/-- Deleting a key from an association list removes it from the key list. -/
theorem not_mem_map_eraseAssoc {α : Type} (k : String) (l : List (String × α)) :
    k ∉ (eraseAssoc k l).map (fun p => p.1) := by
  intro hk
  rcases List.mem_map.mp hk with ⟨p, hp, hpk⟩
  have hfil := List.of_mem_filter hp
  simp [hpk] at hfil

/-- C9: `remove_document` returns true exactly when the id is indexed; in
that case both the chunk list and the vector index are deleted, so
`list_documents` excludes the id and the retrieval filter of `ask` finds no
searchable document for it; when the id is not indexed it returns false and
the state is unchanged. -/
theorem C9_remove_document_atomic :
    ∀ (st : EngineState) (id : String),
      ((removeDocument st id).1 = true ↔ containsKey id st.vectorstores = true)
      ∧ (containsKey id st.vectorstores = true →
           containsKey id ((removeDocument st id).2).vectorstores = false
           ∧ containsKey id ((removeDocument st id).2).documentStore = false
           ∧ id ∉ listDocuments (removeDocument st id).2
           ∧ searchIds (removeDocument st id).2 [id] = [])
      ∧ (containsKey id st.vectorstores = false →
           (removeDocument st id).1 = false ∧ (removeDocument st id).2 = st) := by
  intro st id
  refine ⟨?_, ?_, ?_⟩
  · by_cases h : containsKey id st.vectorstores = true
    · simp [removeDocument, h]
    · simp [removeDocument, h]
  · intro h
    have hst : (removeDocument st id).2
        = { documentStore := eraseAssoc id st.documentStore,
            vectorstores := eraseAssoc id st.vectorstores } := by
      simp [removeDocument, h]
    rw [hst]
    refine ⟨containsKey_eraseAssoc id st.vectorstores,
            containsKey_eraseAssoc id st.documentStore,
            not_mem_map_eraseAssoc id st.vectorstores, ?_⟩
    simp [searchIds, containsKey_eraseAssoc id st.vectorstores]
  · intro h
    simp [removeDocument, h]

/-- Witness for C9: removing an indexed id deletes both maps' entries;
removing an unknown id returns false and changes nothing. -/
theorem C9_remove_document_atomic_witness :
    (containsKey "d" (({ documentStore := [("d", [{ pageContent := "x" }])],
                         vectorstores := [("d", [{ pageContent := "x" }])] } : EngineState)).vectorstores = true →
        containsKey "d" ((removeDocument { documentStore := [("d", [{ pageContent := "x" }])],
                                           vectorstores := [("d", [{ pageContent := "x" }])] } "d").2).vectorstores = false
        ∧ containsKey "d" ((removeDocument { documentStore := [("d", [{ pageContent := "x" }])],
                                             vectorstores := [("d", [{ pageContent := "x" }])] } "d").2).documentStore = false
        ∧ "d" ∉ listDocuments (removeDocument { documentStore := [("d", [{ pageContent := "x" }])],
                                                vectorstores := [("d", [{ pageContent := "x" }])] } "d").2
        ∧ searchIds (removeDocument { documentStore := [("d", [{ pageContent := "x" }])],
                                      vectorstores := [("d", [{ pageContent := "x" }])] } "d").2 ["d"] = [])
    ∧ ((removeDocument { documentStore := [("d", [{ pageContent := "x" }])],
                         vectorstores := [("d", [{ pageContent := "x" }])] } "other").1 = false
        ∧ (removeDocument { documentStore := [("d", [{ pageContent := "x" }])],
                            vectorstores := [("d", [{ pageContent := "x" }])] } "other").2
          = { documentStore := [("d", [{ pageContent := "x" }])],
              vectorstores := [("d", [{ pageContent := "x" }])] }) :=
  ⟨(C9_remove_document_atomic _ "d").2.1,
   (C9_remove_document_atomic _ "other").2.2 rfl⟩

/-- Helper for C7: when none of the requested ids is indexed, document
retrieval returns no chunks, sets `has_documents = False` and raises no
error — exactly as with no requested ids. -/
theorem retrieveDocsStage_unknown (f : String → String → Except String (List Chunk))
    (st : EngineState) (q : String) (ids : List String)
    (h : ∀ i ∈ ids, containsKey i st.vectorstores = false) :
    retrieveDocsStage f st q ids = .ok ([], false) := by
  cases ids with
  | nil => rfl
  | cons i is =>
    have hs : searchIds st (i :: is) = [] := by
      simp only [searchIds, List.filter_eq_nil_iff]
      intro a ha
      simp [h a ha]
    simp [retrieveDocsStage, hs]

/-- C7: an `ask` whose requested document ids are all unknown behaves
identically to the same `ask` with an empty id list; document retrieval
yields zero chunks without error, and with no chunks at all the request is
classified "general". -/
theorem C7_unknown_ids_like_empty :
    (∀ (o : AskOracles) (st : EngineState) (question provider model apiKey : String)
        (ids : List String) (url : Option String) (sid : Option String)
        (conv : List ChatMsg) (uc : Option UserContext),
        (∀ i ∈ ids, containsKey i st.vectorstores = false) →
        askModel o st question provider model apiKey ids url sid conv uc
          = askModel o st question provider model apiKey [] url sid conv uc)
    ∧ (∀ (f : String → String → Except String (List Chunk)) (st : EngineState)
        (q : String) (ids : List String),
        (∀ i ∈ ids, containsKey i st.vectorstores = false) →
        retrieveDocsStage f st q ids = .ok ([], false))
    ∧ classifySourceType false false [] = "general" := by
  refine ⟨?_, fun f st q ids h => retrieveDocsStage_unknown f st q ids h, rfl⟩
  intro o st question provider model apiKey ids url sid conv uc h
  have h1 : retrieveDocsStage o.docRetrieve st question ids = .ok ([], false) :=
    retrieveDocsStage_unknown _ _ _ _ h
  have h2 : retrieveDocsStage o.docRetrieve st question [] = .ok ([], false) := rfl
  simp only [askModel, h1, h2]

/-- Witness for C7: with an empty engine, asking for `doc_unknown` equals
asking with no ids at all. -/
theorem C7_unknown_ids_like_empty_witness :
    askModel ⟨fun _ _ => .ok [], fun _ _ => .ok [], fun _ _ _ => .ok "llm",
        fun _ => none, fun _ _ => .ok "answer"⟩ {} "q" "gemini" "m" "key"
        ["doc_unknown"] none none [] none
      = askModel ⟨fun _ _ => .ok [], fun _ _ => .ok [], fun _ _ _ => .ok "llm",
        fun _ => none, fun _ _ => .ok "answer"⟩ {} "q" "gemini" "m" "key"
        [] none none [] none
    ∧ retrieveDocsStage (fun _ _ => .ok []) {} "q" ["doc_unknown"] = .ok ([], false) :=
  ⟨C7_unknown_ids_like_empty.1 _ _ _ _ _ _ _ _ _ _ _ (by decide),
   C7_unknown_ids_like_empty.2.1 _ _ _ _ (by decide)⟩

/-- Counterexample to C4: with one indexed document and a failing
`retriever.invoke` (e.g. a query-embedding failure), the whole `ask` call
aborts with that error — document-retrieval failures are NOT caught, so
retrieval does not degrade to "zero results from that source". -/
theorem C4_doc_retrieval_error_aborts :
    askModel
      ⟨fun _ _ => .error "embedding failure", fun _ _ => .ok [], fun _ _ _ => .ok "llm",
       fun _ => none, fun _ _ => .ok "answer"⟩
      { documentStore := [("d1", [{ pageContent := "hello", filename := some "a.pdf" }])],
        vectorstores := [("d1", [{ pageContent := "hello", filename := some "a.pdf" }])] }
      "q" "gemini" "m" "key" ["d1"] none none [] none
      = .error "embedding failure" := by rfl

/-- C4 as amended: a crawl/indexing failure for the url source is treated as
zero results from that source only (the call proceeds exactly as if the url
had yielded nothing), but an embedding/search failure while searching an
indexed document propagates and aborts the `ask` call with that error. -/
theorem C4_retrieval_error_policy_amended :
    (∀ (o : AskOracles) (st : EngineState) (question provider model apiKey u : String)
        (ids : List String) (sid : Option String) (conv : List ChatMsg)
        (uc : Option UserContext) (e : String),
        o.urlFetch u question = .error e →
        askModel o st question provider model apiKey ids (some u) sid conv uc
          = askModel { o with urlFetch := fun _ _ => .ok [] } st question provider model apiKey
              ids (some u) sid conv uc)
    ∧ (∀ (o : AskOracles) (st : EngineState) (question provider model apiKey : String)
        (ids : List String) (url : Option String) (sid : Option String)
        (conv : List ChatMsg) (uc : Option UserContext) (i : String)
        (rest : List String) (e : String),
        searchIds st ids = i :: rest → o.docRetrieve i question = .error e →
        askModel o st question provider model apiKey ids url sid conv uc = .error e) := by
  constructor
  · intro o st question provider model apiKey u ids sid conv uc e hu
    have hurl : retrieveUrlStage o.urlFetch question (some u)
        = retrieveUrlStage (fun _ _ => .ok []) question (some u) := by
      unfold retrieveUrlStage
      by_cases h0 : u.isEmpty
      · simp [truthyStr, h0]
      · simp [truthyStr, h0, hu]
    simp only [askModel, hurl]
  · intro o st question provider model apiKey ids url sid conv uc i rest e hs hf
    cases ids with
    | nil => simp [searchIds] at hs
    | cons a as =>
      have hstage : retrieveDocsStage o.docRetrieve st question (a :: as) = .error e := by
        simp only [retrieveDocsStage, List.isEmpty_cons, hs]
        simp [List.mapM.loop, hf]
        rfl
      simp only [askModel, hstage]

/-- Witness for the amended C4: a failing url crawl behaves like an empty
crawl, and a failing document retrieval aborts the call. -/
theorem C4_retrieval_error_policy_amended_witness :
    askModel ⟨fun _ _ => .ok [], fun _ _ => .error "crawl failed", fun _ _ _ => .ok "llm",
        fun _ => none, fun _ _ => .ok "hi"⟩ {} "q" "gemini" "m" "key" []
        (some "http://x") none [] none
      = askModel { (⟨fun _ _ => .ok [], fun _ _ => .error "crawl failed", fun _ _ _ => .ok "llm",
            fun _ => none, fun _ _ => .ok "hi"⟩ : AskOracles) with
            urlFetch := fun _ _ => .ok [] } {} "q" "gemini" "m" "key" []
        (some "http://x") none [] none
    ∧ askModel ⟨fun _ _ => .error "E", fun _ _ => .ok [], fun _ _ _ => .ok "llm",
        fun _ => none, fun _ _ => .ok "hi"⟩
        { documentStore := [("d1", [{ pageContent := "c" }])],
          vectorstores := [("d1", [{ pageContent := "c" }])] }
        "q" "gemini" "m" "key" ["d1"] none none [] none
      = .error "E" :=
  ⟨C4_retrieval_error_policy_amended.1 _ _ _ _ _ _ "http://x" _ _ _ _ "crawl failed" rfl,
   C4_retrieval_error_policy_amended.2 _ _ _ _ _ _ _ _ _ _ _ "d1" [] "E" rfl rfl⟩

/-- C8: provider resolution raises a configuration error exactly when the
provider id is outside `{gemini, openrouter, groq}` or the api key is empty
(empty after stripping whitespace, the code's `not api_key or not
api_key.strip()`); an empty (blank) question is rejected by the request
validator; and `ask` surfaces a provider-initialization failure to the caller
(wrapped in `Provider initialization failed:`) before any generation. -/
theorem C8_configuration_errors :
    (∀ provider apiKey : String,
        (∃ e, validateProviderConfig provider apiKey = .error e)
          ↔ (provider ∉ PROVIDER_NAMES ∨ isBlank apiKey = true))
    ∧ (∀ q : String, (∃ e, validateQuestion q = .error e) ↔ isBlank q = true)
    ∧ (∀ (o : AskOracles) (st : EngineState) (question provider model apiKey : String)
        (ids : List String) (url : Option String) (sid : Option String)
        (conv : List ChatMsg) (uc : Option UserContext) (e : String)
        (docs : List Chunk) (hasDocs : Bool),
        retrieveDocsStage o.docRetrieve st question ids = .ok (docs, hasDocs) →
        getProvider o.construct provider model apiKey = .error e →
        askModel o st question provider model apiKey ids url sid conv uc
          = .error ("Provider initialization failed: " ++ e)) := by
  refine ⟨?_, ?_, ?_⟩
  · intro p k
    by_cases hp : p ∈ PROVIDER_NAMES
    · by_cases hb : isBlank k = true
      · simp [validateProviderConfig, List.elem_eq_mem, hp, hb]
      · simp [validateProviderConfig, List.elem_eq_mem, hp, hb]
    · simp [validateProviderConfig, List.elem_eq_mem, hp]
  · intro q
    by_cases hb : isBlank q = true
    · simp [validateQuestion, hb]
    · simp [validateQuestion, hb]
  · intro o st question provider model apiKey ids url sid conv uc e docs hasDocs h1 h2
    simp only [askModel, h1, h2]

/-- Witness for C8 at concrete inputs: an unknown provider is a configuration
error, a blank question is rejected, and a failing provider constructor makes
`ask` fail with the wrapped error before generation. -/
theorem C8_configuration_errors_witness :
    ((∃ e, validateProviderConfig "foo" "key" = .error e)
        ↔ ("foo" ∉ PROVIDER_NAMES ∨ isBlank "key" = true))
    ∧ ((∃ e, validateQuestion "  " = .error e) ↔ isBlank "  " = true)
    ∧ askModel ⟨fun _ _ => .ok [], fun _ _ => .ok [], fun _ _ _ => .error "boom",
        fun _ => none, fun _ _ => .ok "hi"⟩ {} "q" "gemini" "m" "key"
        [] none none [] none
      = .error ("Provider initialization failed: " ++ "boom") :=
  ⟨C8_configuration_errors.1 "foo" "key",
   C8_configuration_errors.2.1 "  ",
   C8_configuration_errors.2.2 _ _ _ _ _ _ _ _ _ _ _ "boom" [] false rfl rfl⟩

end RagChatbot
